import Mathlib

/-!
# Verification of the voice-noob call-session orchestrator

Shallow embedding of the session-routing, session-initialization, tool
dispatch, transcript-recording and barge-in logic of the voice-noob
repository, together with proofs of the specified properties.

The embedded definitions are translated from the repository sources:
* the Grok realtime design document (voice mapping `_map_voice`, the
  `GrokRealtimeSession.initialize` credential check, the
  `twilio_media_stream` routing on `pricing_tier`),
* the pipeline-mode design document (routing, tool handler),
* `frontend/src/app/dashboard/agents/[id]/page.tsx` (the agent edit
  form's `onSubmit` handler and `UpdateAgentRequest` payload).

Components whose implementation lives outside the available sources
(the generation-epoch barge-in discipline, the tool-call dispatcher's
error conversion and at-most-once guarantee, the tool-chain bound and
the transcript recorder) are modelled from the spec; each such
definition carries a doc comment starting `Modelled from the spec:`.
-/

namespace VoiceNoob

/-! ## Voice mapping (GrokRealtimeSession._map_voice)

Translated from the Grok design document:
```python
def _map_voice(self, voice: str) -> str:
    voice_map = {
        "marin": "Ara",
        "cedar": "Rex",
        "shimmer": "Eve",
        "alloy": "Sal",
        "onyx": "Rex",
    }
    return voice_map.get(voice.lower(), "Ara")  # Default Ara
```
-/

/-- Python's `str.lower()`: each character lower-cased.  (Defined by a
character-wise map so that it evaluates by reduction; the voice names in
play are ASCII.) -/
def strToLower (s : String) : String :=
  String.mk (s.data.map Char.toLower)

/-- `GrokRealtimeSession._map_voice`: maps an OpenAI voice name to a Grok
voice name.  The Python dictionary lookup on `voice.lower()` with default
`"Ara"` is rendered as a chain of equality tests on the lower-cased input. -/
def mapVoice (voice : String) : String :=
  if strToLower voice = "marin" then "Ara"
  else if strToLower voice = "cedar" then "Rex"
  else if strToLower voice = "shimmer" then "Eve"
  else if strToLower voice = "alloy" then "Sal"
  else if strToLower voice = "onyx" then "Rex"
  else "Ara"

/-! ## Pricing-tier derivation (frontend onSubmit)

Translated from `frontend/src/app/dashboard/agents/[id]/page.tsx`:
```ts
let pricingTier: "budget" | "balanced" | "premium" = "balanced";
if (data.llmProvider === "openai-realtime") {
  pricingTier = "premium";
} else if (data.llmModel === "gpt-4o-mini" || data.llmModel === "claude-haiku-4-5") {
  pricingTier = "budget";
}
```
-/

/-- The pricing-tier derivation in the agent edit form's submit handler. -/
def derivePricingTier (llmProvider llmModel : String) : String :=
  if llmProvider = "openai-realtime" then "premium"
  else if llmModel = "gpt-4o-mini" ∨ llmModel = "claude-haiku-4-5" then "budget"
  else "balanced"

/-! ## Agent edit form submit (frontend onSubmit)

The form value type collects every field of `agentFormSchema`; the update
request type collects exactly the fields of the `UpdateAgentRequest`
literal built in `onSubmit`. -/

/-- The fields of the agent edit form (`agentFormSchema` in
`frontend/src/app/dashboard/agents/[id]/page.tsx`).  Floating-point form
fields (`ttsSpeed`, `temperature`) are modelled as rationals; their values
are never used by `onSubmit` beyond being carried in the form. -/
structure AgentFormValues where
  name : String
  description : Option String
  language : String
  ttsProvider : String
  elevenLabsModel : String
  elevenLabsVoiceId : Option String
  ttsSpeed : ℚ
  sttProvider : String
  deepgramModel : String
  llmProvider : String
  llmModel : String
  systemPrompt : String
  temperature : ℚ
  maxTokens : ℤ
  telephonyProvider : String
  phoneNumberId : Option String
  enableRecording : Bool
  enableTranscript : Bool
  turnDetectionMode : String
  isActive : Bool
  enabledTools : List String
  deriving DecidableEq

/-- The update request object literal built in `onSubmit`: exactly the
fields named there, no others. -/
structure UpdateAgentRequest where
  name : String
  description : Option String
  pricing_tier : String
  system_prompt : String
  language : String
  enabled_tools : List String
  phone_number_id : Option String
  enable_recording : Bool
  enable_transcript : Bool
  is_active : Bool
  deriving DecidableEq

/-- The agent edit form's `onSubmit` handler: derives the pricing tier from
the LLM provider/model and builds the `UpdateAgentRequest` sent to
`updateAgent`. -/
def onSubmitRequest (d : AgentFormValues) : UpdateAgentRequest :=
  { name := d.name
    description := d.description
    pricing_tier := derivePricingTier d.llmProvider d.llmModel
    system_prompt := d.systemPrompt
    language := d.language
    enabled_tools := d.enabledTools
    phone_number_id := d.phoneNumberId
    enable_recording := d.enableRecording
    enable_transcript := d.enableTranscript
    is_active := d.isActive }

/-! ## Session routing (twilio_media_stream)

Translated from the updated routing in the Grok design document
(`backend/app/api/telephony_ws.py`):
```python
use_openai_realtime = agent.pricing_tier in ("premium", "premium-mini")
use_grok_realtime = agent.pricing_tier == "grok-realtime"
if use_openai_realtime:
    async with GPTRealtimeSession(...) as realtime_session: ...
elif use_grok_realtime:
    async with GrokRealtimeSession(...) as realtime_session: ...
else:
    # Pipeline mode for budget/balanced
    ...
```
-/

/-- The three session handler kinds a call can be routed to. -/
inductive SessionKind where
  | gptRealtime
  | grokRealtime
  | pipeline
  deriving DecidableEq

/-- The `twilio_media_stream` routing on `agent.pricing_tier`. -/
def selectSession (pricing_tier : String) : SessionKind :=
  if pricing_tier = "premium" ∨ pricing_tier = "premium-mini" then .gptRealtime
  else if pricing_tier = "grok-realtime" then .grokRealtime
  else .pipeline

/-! ## Session initialization (GrokRealtimeSession.initialize)

Translated from the Grok design document:
```python
user_settings = await get_user_api_keys(self.user_id_uuid, self.db, ...)
if not user_settings.xai_api_key:
    raise ValueError("xAI API key not configured for this workspace")
self.session_properties = SessionProperties(
    voice=self._map_voice(agent_config.get("voice", "Ara")), ...)
self.llm = GrokRealtimeLLMService(api_key=user_settings.xai_api_key, ...)
```
The routing code enters the session context manager (which runs
`initialize`) before calling `_handle_twilio_stream`, the loop that reads
telephony audio from the websocket; this ordering is reflected in
`handleCall` below. -/

/-- Python truthiness of a `str | None` field: `not x` holds for `None`
and for the empty string. -/
def falsyStr : Option String → Bool
  | none => true
  | some s => s.isEmpty

/-- The per-call engine configuration resolved before session
construction: the agent's pricing tier, the requested voice, and the
workspace's stored xAI API key (`user_settings.xai_api_key`). -/
structure EngineConfig where
  pricing_tier : String
  voice : String
  xai_api_key : Option String
  deriving DecidableEq

/-- The error raised during session initialization.  The code raises a
Python `ValueError` with the given message; in the spec's error taxonomy
this is the `ConfigurationError` that fails call setup before audio is
accepted. -/
inductive SessionInitError where
  | valueError (msg : String)
  deriving DecidableEq

/-- A constructed Grok realtime session: the session properties built by
`initialize` once the credential check has passed. -/
structure GrokSession where
  api_key : String
  voice : String
  deriving DecidableEq

/-- The active session produced by routing plus initialization. -/
inductive ActiveSession where
  | gpt
  | grok (s : GrokSession)
  | pipelineMode
  deriving DecidableEq

/-- `GrokRealtimeSession.initialize`: fails when the workspace has no xAI
API key, otherwise builds the session with the mapped voice. -/
def grokInitialize (cfg : EngineConfig) : Except SessionInitError GrokSession :=
  if falsyStr cfg.xai_api_key then
    .error (.valueError "xAI API key not configured for this workspace")
  else
    .ok { api_key := cfg.xai_api_key.getD "", voice := mapVoice cfg.voice }

/-- Route on the pricing tier and run the selected session's
initialization.  The GPT realtime and pipeline constructions shown in the
sources perform no credential check at this point. -/
def initializeSession (cfg : EngineConfig) : Except SessionInitError ActiveSession :=
  match selectSession cfg.pricing_tier with
  | .gptRealtime => .ok .gpt
  | .grokRealtime => (grokInitialize cfg).map .grok
  | .pipeline => .ok .pipelineMode

/-- Outcome of handling one inbound call: either initialization failed and
the recorded list of audio chunks accepted before the error is empty, or
the session is running and `start` has accepted the call's audio. -/
inductive CallOutcome where
  | rejected (e : SessionInitError) (audioAcceptedBeforeError : List Nat)
  | running (s : ActiveSession) (acceptedAudio : List Nat)
  deriving DecidableEq

/-- One call handled end to end: session construction happens inside the
`async with` entry, before `_handle_twilio_stream` starts consuming
telephony audio, so an initialization error leaves the accepted-audio list
empty. -/
def handleCall (cfg : EngineConfig) (audio : List Nat) : CallOutcome :=
  match initializeSession cfg with
  | .error e => .rejected e []
  | .ok s => .running s audio

/-! ## Tool Call Dispatcher

The pipeline tool handler's implementation lives in
`backend/app/services/pipeline/session.py`, which is not among the
available sources; the design documents record only that tool errors are
"handled gracefully with JSON error responses".  The dispatcher is
therefore modelled from the spec (§4.5). -/

/-- Association-list lookup by string key, mirroring a Python dict /
registry `get`. -/
def assocLookup {α : Type} : List (String × α) → String → Option α
  | [], _ => none
  | (k, v) :: rest, key => if k = key then some v else assocLookup rest key

/-- Modelled from the spec: an executable tool capability from the tool
registry; it accepts JSON arguments and returns JSON or raises an
exception, rendered as `Except` with the exception message. -/
structure Tool where
  run : String → Except String String

/-- Modelled from the spec: the bounded-size JSON error payload the
dispatcher produces from an error kind and message; the free-form message
is truncated to 200 characters so the payload size is bounded. -/
def errorPayloadChars (kind msg : String) : List Char :=
  "\x7b\"error\": \"".data ++ kind.data ++ "\", \"message\": \"".data
    ++ msg.data.take 200 ++ "\"\x7d".data

/-- The bounded-size JSON error payload as a string. -/
def errorPayload (kind msg : String) : String :=
  String.mk (errorPayloadChars kind msg)

/-- A tool result delivered back to the session: either the tool's JSON
output or a JSON failure payload. -/
inductive ToolResult where
  | ok (json : String)
  | failure (payload : String)
  deriving DecidableEq

/-- Modelled from the spec: the Tool Call Dispatcher.  An unknown tool
name becomes an `UnknownToolError` failure payload; a tool whose execution
raises becomes a `ToolExecutionError` failure payload; no exception
escapes (the function is total into `ToolResult`). -/
def dispatchTool (registry : List (String × Tool)) (name args : String) : ToolResult :=
  match assocLookup registry name with
  | none => .failure (errorPayload "UnknownToolError" ("Unknown tool: " ++ name))
  | some t =>
    match t.run args with
    | .ok r => .ok r
    | .error e => .failure (errorPayload "ToolExecutionError" e)

/-- What the session does with a tool result: inject it into the
conversation and continue generation.  Both success and failure results
continue; neither terminates the call. -/
inductive SessionFlow where
  | continueGeneration (toolResultPayload : String)
  deriving DecidableEq

/-- Modelled from the spec: the session turns any tool result, success or
failure, into a continued generation with the result payload injected. -/
def sessionHandleToolResult : ToolResult → SessionFlow
  | .ok j => .continueGeneration j
  | .failure p => .continueGeneration p

/-- The payload a session flow injects into the conversation context. -/
def SessionFlow.payload : SessionFlow → String
  | .continueGeneration p => p

/-! ## At-most-once invocation (Dispatcher state) -/

/-- A tool invocation request as emitted by the conversation engine. -/
structure Request where
  invocation_id : String
  tool_name : String
  arguments : String

/-- Modelled from the spec: dispatcher bookkeeping for the at-most-once
guarantee — completed results by invocation identifier, plus a log of the
invocation identifiers for which the underlying tool was actually
executed. -/
structure DispatcherState where
  completed : List (String × ToolResult)
  execLog : List String

/-- Modelled from the spec: dispatch one invocation.  If a result for the
invocation identifier already exists, it is returned without executing the
tool again; otherwise the tool is executed once, logged, and the result
stored. -/
def dispatchInvocation (registry : List (String × Tool)) (st : DispatcherState)
    (req : Request) : DispatcherState × ToolResult :=
  match assocLookup st.completed req.invocation_id with
  | some r => (st, r)
  | none =>
    let r := dispatchTool registry req.tool_name req.arguments
    ({ completed := (req.invocation_id, r) :: st.completed,
       execLog := st.execLog ++ [req.invocation_id] }, r)

/-- Run the dispatcher over a sequence of invocation requests. -/
def runDispatcher (registry : List (String × Tool)) (st : DispatcherState) :
    List Request → DispatcherState
  | [] => st
  | r :: rs => runDispatcher registry (dispatchInvocation registry st r).1 rs

/-! ## Tool-chain bound -/

/-- What the generation stage yields on one invocation: final text or a
tool-call request. -/
inductive GenOutcome where
  | text (t : String)
  | toolCall (name : String) (args : String)

/-- Result of one agent turn: the final agent text, or the
`ToolChainExceededError`-driven fallback utterance. -/
inductive TurnResult where
  | finalText (t : String)
  | chainExceeded (fallback : String)
  deriving DecidableEq

/-- Modelled from the spec: the short apologetic fallback utterance spoken
when `ToolChainExceededError` ends the turn. -/
def fallbackUtterance : String :=
  "I am sorry, I was unable to complete that request."

/-- Modelled from the spec: the tool-call/generation loop of the cascaded
session.  The generation stage is a function from the conversation context
to a `GenOutcome`; each tool call is dispatched, its result appended to
the context as a synthetic turn, and generation re-invoked, bounded by the
remaining chain length; at the bound the turn ends with the
`ToolChainExceededError` fallback. -/
def runToolChain (llm : List String → GenOutcome) (registry : List (String × Tool)) :
    Nat → List String → TurnResult
  | 0, _ => .chainExceeded fallbackUtterance
  | fuel + 1, ctx =>
    match llm ctx with
    | .text t => .finalText t
    | .toolCall name args =>
      runToolChain llm registry fuel
        (ctx ++ [(sessionHandleToolResult (dispatchTool registry name args)).payload])

/-! ## Transcript Recorder -/

/-- One finalized conversation turn with its start and completion
timestamps. -/
structure ConversationTurn where
  role : String
  text : String
  startedAt : Nat
  endedAt : Nat
  deriving DecidableEq

/-- Turn-level events reaching the recorder: interim (partial) transcript
deltas, and completed turns with final text. -/
inductive TurnEvent where
  | interimDelta (role : String) (interimText : String)
  | turnCompleted (t : ConversationTurn)

/-- Modelled from the spec: the Transcript Recorder owns the append-only
ordered sequence of finalized turns. -/
structure TranscriptRecorder where
  turns : List ConversationTurn

/-- Modelled from the spec: a turn is appended only once its text is final
— interim deltas never touch the transcript. -/
def recordEvent (r : TranscriptRecorder) : TurnEvent → TranscriptRecorder
  | .interimDelta _ _ => r
  | .turnCompleted t => { turns := r.turns ++ [t] }

/-- Feed a sequence of turn events to the recorder. -/
def recordEvents (r : TranscriptRecorder) : List TurnEvent → TranscriptRecorder
  | [] => r
  | e :: rest => recordEvents (recordEvent r e) rest

/-- `get_transcript()`: the stable, already-finalized sequence of turns;
callable at any point of the event stream (mid-call or after call end). -/
def getTranscript (r : TranscriptRecorder) : List ConversationTurn :=
  r.turns

/-- The completed turns carried by an event sequence, in arrival order. -/
def completedTurns (evs : List TurnEvent) : List ConversationTurn :=
  evs.filterMap fun e =>
    match e with
    | .turnCompleted t => some t
    | .interimDelta _ _ => none

/-! ## Generation-epoch barge-in discipline -/

/-- An outbound audio chunk stamped with the generation epoch it was
produced for. -/
structure OutChunk where
  epoch : Nat
  payload : Nat
  deriving DecidableEq

/-- Modelled from the spec: the per-session outbound-writer state — the
current generation epoch and the chunks delivered to the Transport
Adapter. -/
structure WriterState where
  epoch : Nat
  delivered : List OutChunk
  deriving DecidableEq

/-- Events affecting the outbound writer: a speech-start (barge-in)
signal, or an attempt to write one generated chunk. -/
inductive SessionEvent where
  | speechStart
  | audioWrite (c : OutChunk)

/-- Modelled from the spec: a barge-in bumps the generation epoch; the
response writer checks the chunk's epoch against the current one before
each write and discards writes whose epoch has been superseded. -/
def stepWriter (s : WriterState) : SessionEvent → WriterState
  | .speechStart => { s with epoch := s.epoch + 1 }
  | .audioWrite c =>
    if c.epoch = s.epoch then { s with delivered := s.delivered ++ [c] } else s

/-- Run the outbound writer over a sequence of session events. -/
def runWriter (s : WriterState) : List SessionEvent → WriterState
  | [] => s
  | e :: rest => runWriter (stepWriter s e) rest

/-! ## Theorems -/

/-- C10: `GrokRealtimeSession._map_voice` is total on input strings and
always returns one of the Grok voices `"Ara"`, `"Rex"`, `"Eve"`, `"Sal"`;
it is case-insensitive (it depends only on the lower-cased input); every
input whose lower-cased form is outside the five mapped OpenAI voices
yields the default `"Ara"`; in particular the Grok voice `"Leo"` is never
returned. -/
theorem mapVoice_spec (v w : String) :
    (mapVoice v = "Ara" ∨ mapVoice v = "Rex" ∨ mapVoice v = "Eve" ∨ mapVoice v = "Sal")
    ∧ mapVoice v ≠ "Leo"
    ∧ (strToLower v = strToLower w → mapVoice v = mapVoice w)
    ∧ (strToLower v ∉ (["marin", "cedar", "shimmer", "alloy", "onyx"] : List String) →
        mapVoice v = "Ara") := by
  refine ⟨?_, ?_, ?_, ?_⟩
  · unfold mapVoice
    split_ifs <;> simp
  · unfold mapVoice
    split_ifs <;> decide
  · intro h
    unfold mapVoice
    rw [h]
  · intro h
    simp only [List.mem_cons, List.not_mem_nil, or_false, not_or] at h
    unfold mapVoice
    simp [h.1, h.2.1, h.2.2.1, h.2.2.2.1, h.2.2.2.2]

/-- Witness for C10 at concrete inputs: `"MARIN"` maps as `"marin"` does,
and the unmapped voice name `"Leo"` falls back to `"Ara"`. -/
theorem mapVoice_spec_witness :
    mapVoice "MARIN" = mapVoice "marin" ∧ mapVoice "Leo" = "Ara" :=
  ⟨(mapVoice_spec "MARIN" "marin").2.2.1 (by decide),
   (mapVoice_spec "Leo" "Leo").2.2.2 (by decide)⟩

/-- C9: the pricing-tier derivation in the agent edit form's submit
handler is total and returns one of `"budget"`, `"balanced"`,
`"premium"`; provider `"openai-realtime"` forces `"premium"` regardless of
the model; otherwise the result is `"budget"` exactly when the model is
`"gpt-4o-mini"` or `"claude-haiku-4-5"`, and `"balanced"` in every other
case. -/
theorem derivePricingTier_spec (p m : String) :
    (derivePricingTier p m = "budget" ∨ derivePricingTier p m = "balanced" ∨
      derivePricingTier p m = "premium")
    ∧ (p = "openai-realtime" → derivePricingTier p m = "premium")
    ∧ (p ≠ "openai-realtime" →
        (derivePricingTier p m = "budget" ↔ (m = "gpt-4o-mini" ∨ m = "claude-haiku-4-5")))
    ∧ (p ≠ "openai-realtime" → m ≠ "gpt-4o-mini" → m ≠ "claude-haiku-4-5" →
        derivePricingTier p m = "balanced") := by
  refine ⟨?_, ?_, ?_, ?_⟩
  · unfold derivePricingTier
    split_ifs <;> simp
  · intro hp
    simp [derivePricingTier, hp]
  · intro hp
    unfold derivePricingTier
    rw [if_neg hp]
    split_ifs with hm
    · simp [hm]
    · simp [hm]
  · intro hp h1 h2
    simp [derivePricingTier, hp, h1, h2]

/-- Witness for C9 at concrete inputs: realtime provider wins over a
budget model, a budget model gives `"budget"`, anything else gives
`"balanced"`. -/
theorem derivePricingTier_spec_witness :
    derivePricingTier "openai-realtime" "gpt-4o-mini" = "premium"
    ∧ derivePricingTier "anthropic" "claude-haiku-4-5" = "budget"
    ∧ derivePricingTier "openai" "gpt-4o" = "balanced" :=
  ⟨(derivePricingTier_spec "openai-realtime" "gpt-4o-mini").2.1 rfl,
   (derivePricingTier_spec "anthropic" "claude-haiku-4-5").2.2.1 (by decide)
     |>.mpr (Or.inr rfl),
   (derivePricingTier_spec "openai" "gpt-4o").2.2.2 (by decide) (by decide) (by decide)⟩

/-- C8: the update request built by the agent edit form's `onSubmit`
depends only on the form's name, description, system prompt, language,
enabled tools, phone number, recording/transcript switches, active flag
and the LLM provider/model (through the derived pricing tier): two form
states agreeing on those fields but differing arbitrarily in TTS
provider/model/voice, TTS speed, STT provider/model, temperature, max
tokens, turn-detection mode and telephony provider produce identical
requests, so those agent fields are never part of the update. -/
theorem onSubmitRequest_frame (f g : AgentFormValues)
    (hname : f.name = g.name)
    (hdesc : f.description = g.description)
    (hlang : f.language = g.language)
    (hllmP : f.llmProvider = g.llmProvider)
    (hllmM : f.llmModel = g.llmModel)
    (hsys : f.systemPrompt = g.systemPrompt)
    (hphone : f.phoneNumberId = g.phoneNumberId)
    (hrec : f.enableRecording = g.enableRecording)
    (htr : f.enableTranscript = g.enableTranscript)
    (hact : f.isActive = g.isActive)
    (htools : f.enabledTools = g.enabledTools) :
    onSubmitRequest f = onSubmitRequest g := by
  simp [onSubmitRequest, UpdateAgentRequest.mk.injEq, hname, hdesc, hlang, hllmP, hllmM,
    hsys, hphone, hrec, htr, hact, htools]

/-- Witness for C8 at concrete inputs: two forms differing in every
excluded field (TTS, STT, temperature, max tokens, telephony provider,
turn-detection mode) yield the same update request. -/
theorem onSubmitRequest_frame_witness :
    onSubmitRequest
      { name := "Agent", description := some "d", language := "en"
        ttsProvider := "elevenlabs", elevenLabsModel := "turbo-v2.5"
        elevenLabsVoiceId := some "v1", ttsSpeed := 1
        sttProvider := "deepgram", deepgramModel := "nova-3"
        llmProvider := "openai", llmModel := "gpt-4o"
        systemPrompt := "You are a helpful voice assistant."
        temperature := 7/10, maxTokens := 2000
        telephonyProvider := "telnyx", phoneNumberId := some "p1"
        enableRecording := true, enableTranscript := true
        turnDetectionMode := "server-vad", isActive := true
        enabledTools := ["get_weather"] }
    = onSubmitRequest
      { name := "Agent", description := some "d", language := "en"
        ttsProvider := "google", elevenLabsModel := "other"
        elevenLabsVoiceId := none, ttsSpeed := 2
        sttProvider := "google", deepgramModel := "nova-2"
        llmProvider := "openai", llmModel := "gpt-4o"
        systemPrompt := "You are a helpful voice assistant."
        temperature := 3/2, maxTokens := 16000
        telephonyProvider := "twilio", phoneNumberId := some "p1"
        enableRecording := true, enableTranscript := true
        turnDetectionMode := "pushToTalk", isActive := true
        enabledTools := ["get_weather"] } :=
  onSubmitRequest_frame _ _ rfl rfl rfl rfl rfl rfl rfl rfl rfl rfl rfl

/-- C2: session selection is a total function of the per-call pricing
tier: `"premium"` and `"premium-mini"` select the GPT realtime
(speech-to-speech) session, `"grok-realtime"` selects the Grok
speech-to-speech session, and every other tier selects the cascaded
pipeline session; exactly one session kind is selected per call. -/
theorem selectSession_spec (tier : String) :
    (tier = "premium" ∨ tier = "premium-mini" → selectSession tier = .gptRealtime)
    ∧ (tier = "grok-realtime" → selectSession tier = .grokRealtime)
    ∧ (tier ≠ "premium" → tier ≠ "premium-mini" → tier ≠ "grok-realtime" →
        selectSession tier = .pipeline)
    ∧ (∃! k, selectSession tier = k) := by
  refine ⟨?_, ?_, ?_, selectSession tier, rfl, fun k hk => hk.symm⟩
  · intro h
    simp [selectSession, h]
  · intro h
    simp [selectSession, h]
  · intro h1 h2 h3
    simp [selectSession, h1, h2, h3]

/-- Witness for C2 at concrete tiers: each routing branch at a concrete
pricing tier. -/
theorem selectSession_spec_witness :
    selectSession "premium-mini" = .gptRealtime
    ∧ selectSession "grok-realtime" = .grokRealtime
    ∧ selectSession "budget" = .pipeline :=
  ⟨(selectSession_spec "premium-mini").1 (Or.inr rfl),
   (selectSession_spec "grok-realtime").2.1 rfl,
   (selectSession_spec "budget").2.2.1 (by decide) (by decide) (by decide)⟩

/-- C1: for every engine configuration, handling a call either yields a
running session whose start has accepted the call's audio, or rejects the
call with an initialization error while the list of audio chunks accepted
before the error is empty; in particular a grok-realtime configuration
with a missing (or empty) xAI API key is rejected during session
initialization, before the first audio chunk is processed. -/
theorem handleCall_config_error_before_audio (cfg : EngineConfig) (audio : List Nat) :
    ((∃ s, handleCall cfg audio = .running s audio) ∨
      (∃ e, handleCall cfg audio = .rejected e []))
    ∧ (cfg.pricing_tier = "grok-realtime" → falsyStr cfg.xai_api_key = true →
        handleCall cfg audio =
          .rejected (.valueError "xAI API key not configured for this workspace") []) := by
  constructor
  · cases h : initializeSession cfg with
    | error e => exact Or.inr ⟨e, by simp [handleCall, h]⟩
    | ok s => exact Or.inl ⟨s, by simp [handleCall, h]⟩
  · intro h1 h2
    simp [handleCall, initializeSession, selectSession, grokInitialize, h1, h2, Except.map]

/-- Witness for C1 at a concrete configuration: a grok-realtime agent in a
workspace with no stored xAI key is rejected with zero audio chunks
accepted, even though three chunks arrive. -/
theorem handleCall_config_error_before_audio_witness :
    handleCall { pricing_tier := "grok-realtime", voice := "marin", xai_api_key := none }
        [1, 2, 3]
      = .rejected (.valueError "xAI API key not configured for this workspace") [] :=
  (handleCall_config_error_before_audio
      { pricing_tier := "grok-realtime", voice := "marin", xai_api_key := none }
      [1, 2, 3]).2 rfl rfl

/-- The outbound writer only appends to the delivered list, and every
chunk delivered from a given state onwards carries an epoch at least that
state's epoch. -/
theorem runWriter_delivered_ge (s : WriterState) (evs : List SessionEvent) :
    ∃ t, (runWriter s evs).delivered = s.delivered ++ t
      ∧ ∀ c ∈ t, s.epoch ≤ c.epoch := by
  induction evs generalizing s with
  | nil => exact ⟨[], by simp [runWriter], by simp⟩
  | cons e rest ih =>
    cases e with
    | speechStart =>
      obtain ⟨t, ht, hall⟩ := ih (stepWriter s .speechStart)
      refine ⟨t, ?_, fun c hc => le_trans (Nat.le_succ _) (hall c hc)⟩
      show (runWriter (stepWriter s .speechStart) rest).delivered = _
      rw [ht]
      rfl
    | audioWrite c =>
      by_cases hc : c.epoch = s.epoch
      · obtain ⟨t, ht, hall⟩ := ih (stepWriter s (.audioWrite c))
        refine ⟨c :: t, ?_, ?_⟩
        · show (runWriter (stepWriter s (.audioWrite c)) rest).delivered = _
          rw [ht]
          simp [stepWriter, hc]
        · intro c' hc'
          rcases List.mem_cons.1 hc' with h | h
          · rw [h, hc]
          · have := hall c' h
            simpa [stepWriter, hc] using this
      · obtain ⟨t, ht, hall⟩ := ih (stepWriter s (.audioWrite c))
        refine ⟨t, ?_, ?_⟩
        · show (runWriter (stepWriter s (.audioWrite c)) rest).delivered = _
          rw [ht]
          simp [stepWriter, hc]
        · intro c' hc'
          have := hall c' hc'
          simpa [stepWriter, hc] using this

/-- C3: after a speech-start (barge-in) signal at any point of a
response, every audio chunk subsequently delivered to the Transport
Adapter carries a generation epoch strictly greater than the epoch that
was current when the barge-in arrived: the writer checks the per-session
epoch before each write and discards superseded writes, so no chunk of
the cancelled generation is ever delivered after the cancellation. -/
theorem bargeIn_no_stale_audio (s : WriterState) (evs : List SessionEvent) :
    ∃ t, (runWriter (stepWriter s .speechStart) evs).delivered = s.delivered ++ t
      ∧ ∀ c ∈ t, s.epoch < c.epoch := by
  obtain ⟨t, ht, hall⟩ := runWriter_delivered_ge (stepWriter s .speechStart) evs
  exact ⟨t, ht, fun c hc => hall c hc⟩

/-- The dispatcher's JSON error payload is bounded in size: at most the
error-kind length plus 228 characters, whatever the message. -/
theorem errorPayload_length_le (kind msg : String) :
    (errorPayload kind msg).length ≤ kind.length + 228 := by
  show (errorPayloadChars kind msg).length ≤ kind.data.length + 228
  have h4 : (msg.data.take 200).length ≤ 200 := by simp [List.length_take]
  simp only [errorPayloadChars, List.length_append, List.length_cons, List.length_nil]
  omega

/-- C4: the dispatcher never lets an error escape into session control
flow: for every tool invocation the session receives a
`continueGeneration` flow (the call does not terminate); an unknown tool
name becomes an `UnknownToolError` failure payload; a failing tool
execution becomes a `ToolExecutionError` failure payload; and every
failure payload is a bounded-size JSON value (at most 246 characters). -/
theorem dispatchTool_spec (registry : List (String × Tool)) (name args : String) :
    (∃ payload, sessionHandleToolResult (dispatchTool registry name args)
        = .continueGeneration payload)
    ∧ (assocLookup registry name = none →
        dispatchTool registry name args
          = .failure (errorPayload "UnknownToolError" ("Unknown tool: " ++ name)))
    ∧ (∀ t e, assocLookup registry name = some t → t.run args = .error e →
        dispatchTool registry name args = .failure (errorPayload "ToolExecutionError" e))
    ∧ (∀ payload, dispatchTool registry name args = .failure payload →
        payload.length ≤ 246) := by
  refine ⟨?_, ?_, ?_, ?_⟩
  · cases h : dispatchTool registry name args with
    | ok j => exact ⟨j, rfl⟩
    | failure p => exact ⟨p, rfl⟩
  · intro h
    simp [dispatchTool, h]
  · intro t e ht he
    simp [dispatchTool, ht, he]
  · intro payload hp
    cases hl : assocLookup registry name with
    | none =>
      rw [show dispatchTool registry name args
          = .failure (errorPayload "UnknownToolError" ("Unknown tool: " ++ name))
          from by simp [dispatchTool, hl]] at hp
      have hb := errorPayload_length_le "UnknownToolError" ("Unknown tool: " ++ name)
      have hk : ("UnknownToolError" : String).length = 16 := rfl
      injection hp with hpp
      rw [← hpp]
      omega
    | some t =>
      cases hr : t.run args with
      | ok r => simp [dispatchTool, hl, hr] at hp
      | error e =>
        rw [show dispatchTool registry name args
            = .failure (errorPayload "ToolExecutionError" e)
            from by simp [dispatchTool, hl, hr]] at hp
        have hb := errorPayload_length_le "ToolExecutionError" e
        have hk : ("ToolExecutionError" : String).length = 18 := rfl
        injection hp with hpp
        rw [← hpp]
        omega

/-- Witness for C4 at concrete inputs: requesting the unknown tool
`"nonexistent_tool"` against a registry holding only `"get_weather"`
produces an `UnknownToolError` failure payload, and the session continues
generation with that payload injected. -/
theorem dispatchTool_spec_witness :
    dispatchTool [("get_weather", ⟨fun _ => .ok "sunny"⟩)] "nonexistent_tool" "\x7b\x7d"
        = .failure (errorPayload "UnknownToolError" ("Unknown tool: " ++ "nonexistent_tool"))
    ∧ sessionHandleToolResult
        (dispatchTool [("get_weather", ⟨fun _ => .ok "sunny"⟩)] "nonexistent_tool" "\x7b\x7d")
        = .continueGeneration
            (errorPayload "UnknownToolError" ("Unknown tool: " ++ "nonexistent_tool")) := by
  have h := (dispatchTool_spec [("get_weather", ⟨fun _ => .ok "sunny"⟩)]
      "nonexistent_tool" "\x7b\x7d").2.1 (by simp [assocLookup])
  exact ⟨h, by rw [h]; rfl⟩

/-- One dispatcher step preserves the at-most-once bookkeeping invariant:
the execution log stays duplicate-free and every logged invocation
identifier has a stored result. -/
theorem dispatchInvocation_inv (registry : List (String × Tool)) (st : DispatcherState)
    (r : Request) (h1 : st.execLog.Nodup)
    (h2 : ∀ id ∈ st.execLog, (assocLookup st.completed id).isSome) :
    (dispatchInvocation registry st r).1.execLog.Nodup
    ∧ ∀ id ∈ (dispatchInvocation registry st r).1.execLog,
        (assocLookup (dispatchInvocation registry st r).1.completed id).isSome := by
  cases hl : assocLookup st.completed r.invocation_id with
  | some res => simpa [dispatchInvocation, hl] using ⟨h1, h2⟩
  | none =>
    have hnot : r.invocation_id ∉ st.execLog := by
      intro hmem
      have h := h2 _ hmem
      rw [hl] at h
      simp at h
    constructor
    · simp [dispatchInvocation, hl, List.nodup_append, h1, hnot]
    · intro id hid
      simp only [dispatchInvocation, hl] at hid ⊢
      by_cases heq : r.invocation_id = id
      · simp [assocLookup, heq]
      · simp only [assocLookup, if_neg heq]
        simp only [List.mem_append, List.mem_singleton] at hid
        rcases hid with hid | hid
        · exact h2 id hid
        · exact absurd hid.symm heq

/-- Running the dispatcher preserves the at-most-once bookkeeping
invariant. -/
theorem runDispatcher_inv (registry : List (String × Tool)) (reqs : List Request)
    (st : DispatcherState) (h1 : st.execLog.Nodup)
    (h2 : ∀ id ∈ st.execLog, (assocLookup st.completed id).isSome) :
    (runDispatcher registry st reqs).execLog.Nodup
    ∧ ∀ id ∈ (runDispatcher registry st reqs).execLog,
        (assocLookup (runDispatcher registry st reqs).completed id).isSome := by
  induction reqs generalizing st with
  | nil => exact ⟨h1, h2⟩
  | cons r rs ih =>
    have hstep := dispatchInvocation_inv registry st r h1 h2
    exact ih (dispatchInvocation registry st r).1 hstep.1 hstep.2

/-- C5: tool dispatch is at-most-once per invocation identifier: over any
sequence of invocation requests (with arbitrary repetitions of
identifiers), the underlying tool is executed at most once per
identifier — a repeated identifier is answered from the stored result,
never re-executed. -/
theorem dispatcher_at_most_once (registry : List (String × Tool)) (reqs : List Request)
    (id : String) :
    (runDispatcher registry { completed := [], execLog := [] } reqs).execLog.count id ≤ 1 := by
  have h := runDispatcher_inv registry reqs { completed := [], execLog := [] }
    (by simp) (by simp)
  exact List.nodup_iff_count_le_one.1 h.1 id

/-- C6: the tool-call/generation loop always terminates: every run ends
in either final agent text or the `ToolChainExceededError`-driven
fallback utterance, and a pathological generation stage that requests a
tool call on every invocation ends with the fallback utterance after the
configured maximum chain length, never looping forever. -/
theorem toolChain_bound (llm : List String → GenOutcome) (registry : List (String × Tool))
    (maxChain : Nat) (ctx : List String) :
    ((∃ t, runToolChain llm registry maxChain ctx = .finalText t) ∨
      runToolChain llm registry maxChain ctx = .chainExceeded fallbackUtterance)
    ∧ ((∀ c, ∃ n a, llm c = .toolCall n a) →
        runToolChain llm registry maxChain ctx = .chainExceeded fallbackUtterance) := by
  constructor
  · induction maxChain generalizing ctx with
    | zero => exact Or.inr rfl
    | succ n ih =>
      cases h : llm ctx with
      | text t => exact Or.inl ⟨t, by simp [runToolChain, h]⟩
      | toolCall nm a =>
        have heq : runToolChain llm registry (n + 1) ctx
            = runToolChain llm registry n
                (ctx ++ [(sessionHandleToolResult (dispatchTool registry nm a)).payload]) := by
          simp [runToolChain, h]
        rw [heq]
        exact ih _
  · intro hpath
    induction maxChain generalizing ctx with
    | zero => rfl
    | succ n ih =>
      obtain ⟨nm, a, h⟩ := hpath ctx
      have heq : runToolChain llm registry (n + 1) ctx
          = runToolChain llm registry n
              (ctx ++ [(sessionHandleToolResult (dispatchTool registry nm a)).payload]) := by
        simp [runToolChain, h]
      rw [heq]
      exact ih _

/-- Witness for C6 at concrete inputs: a generation stage that always
requests another tool call stops after a chain bound of 5 with the
fallback utterance. -/
theorem toolChain_bound_witness :
    runToolChain (fun _ => .toolCall "loop_tool" "\x7b\x7d") [] 5 []
      = .chainExceeded fallbackUtterance :=
  (toolChain_bound (fun _ => .toolCall "loop_tool" "\x7b\x7d") [] 5 []).2
    (fun _ => ⟨"loop_tool", "\x7b\x7d", rfl⟩)

/-- The recorder's transcript after a sequence of events is the starting
transcript followed by exactly the completed turns of those events, in
arrival order. -/
theorem recordEvents_turns (r : TranscriptRecorder) (evs : List TurnEvent) :
    (recordEvents r evs).turns = r.turns ++ completedTurns evs := by
  induction evs generalizing r with
  | nil => simp [recordEvents, completedTurns]
  | cons e rest ih =>
    cases e with
    | interimDelta role p =>
      show (recordEvents (recordEvent r (.interimDelta role p)) rest).turns = _
      rw [ih]
      simp [recordEvent, completedTurns]
    | turnCompleted t =>
      show (recordEvents (recordEvent r (.turnCompleted t)) rest).turns = _
      rw [ih]
      simp [recordEvent, completedTurns]

/-- C7: for any interleaving of interim deltas and completed turns whose
completed turns arrive in completion-time order (start times arbitrary),
`get_transcript()` returns exactly the finalized turns — never an interim
or partial turn — ordered by completion time; it is queryable mid-call
(after any event prefix) as well as after call end, and the mid-call
transcript is a stable prefix of the final one. -/
theorem transcript_spec (evs₁ evs₂ : List TurnEvent)
    (horder : List.Pairwise (fun a b => a.endedAt ≤ b.endedAt)
        (completedTurns (evs₁ ++ evs₂))) :
    getTranscript (recordEvents ⟨[]⟩ evs₁) = completedTurns evs₁
    ∧ getTranscript (recordEvents ⟨[]⟩ (evs₁ ++ evs₂)) = completedTurns (evs₁ ++ evs₂)
    ∧ List.Pairwise (fun a b => a.endedAt ≤ b.endedAt)
        (getTranscript (recordEvents ⟨[]⟩ evs₁))
    ∧ List.Pairwise (fun a b => a.endedAt ≤ b.endedAt)
        (getTranscript (recordEvents ⟨[]⟩ (evs₁ ++ evs₂)))
    ∧ ∃ rest, getTranscript (recordEvents ⟨[]⟩ (evs₁ ++ evs₂))
        = getTranscript (recordEvents ⟨[]⟩ evs₁) ++ rest := by
  have hmid : getTranscript (recordEvents ⟨[]⟩ evs₁) = completedTurns evs₁ := by
    simp [getTranscript, recordEvents_turns]
  have hfull : getTranscript (recordEvents ⟨[]⟩ (evs₁ ++ evs₂))
      = completedTurns (evs₁ ++ evs₂) := by
    simp [getTranscript, recordEvents_turns]
  have happ : completedTurns (evs₁ ++ evs₂) = completedTurns evs₁ ++ completedTurns evs₂ := by
    simp [completedTurns, List.filterMap_append]
  refine ⟨hmid, hfull, ?_, ?_, ?_⟩
  · rw [hmid]
    have h2 := happ ▸ horder
    exact h2.sublist (List.sublist_append_left _ _)
  · rw [hfull]
    exact horder
  · exact ⟨completedTurns evs₂, by rw [hmid, hfull, happ]⟩

/-- Witness for C7 at concrete inputs: the user turn starts first
(time 0) but completes last (time 12); the agent turn starts later
(time 3) but completes first (time 10).  The mid-call transcript after
the agent's completion holds exactly the finalized agent turn, and the
final transcript is ordered by completion time — agent before user —
despite the opposite start order; interim deltas never appear. -/
theorem transcript_spec_witness :
    getTranscript (recordEvents ⟨[]⟩
        [TurnEvent.interimDelta "agent" "Hel",
         TurnEvent.turnCompleted ⟨"agent", "Hello!", 3, 10⟩])
      = [⟨"agent", "Hello!", 3, 10⟩]
    ∧ getTranscript (recordEvents ⟨[]⟩
        ([TurnEvent.interimDelta "agent" "Hel",
          TurnEvent.turnCompleted ⟨"agent", "Hello!", 3, 10⟩]
          ++ [TurnEvent.interimDelta "user" "H",
              TurnEvent.turnCompleted ⟨"user", "Hi there", 0, 12⟩]))
      = [⟨"agent", "Hello!", 3, 10⟩, ⟨"user", "Hi there", 0, 12⟩] := by
  have h := transcript_spec
    [TurnEvent.interimDelta "agent" "Hel",
     TurnEvent.turnCompleted ⟨"agent", "Hello!", 3, 10⟩]
    [TurnEvent.interimDelta "user" "H",
     TurnEvent.turnCompleted ⟨"user", "Hi there", 0, 12⟩]
    (by decide)
  exact ⟨h.1.trans (by decide), h.2.1.trans (by decide)⟩

end VoiceNoob
